import Mathlib

/-!
Verification of the Bob Jane T-Marts Inter-Store Transfer Tracker
(src/app.py and src/utils/storage.py) against its specification.

The Python code is shallowly embedded: dataframes become lists of rows,
rows are association lists or structures of string fields, the CSV backing
file becomes an explicit `Store` value, and the JSON config file becomes an
explicit `ConfigFile` state. Machine-level concerns (actual CSV text,
pandas NA tokens) are modelled at the level the spec itself uses: cells are
literal text, with missing cells read back as the empty string.

Python string helpers are embedded as executable functions over character
lists: `pyStrip` models `str.strip()` and `pyLower` models `str.lower()`
(restricted, as the data in this application is, to characters where the
two languages agree).
-/

namespace Tracker

/-- Models Python `str.strip()`: drop whitespace from both ends. -/
def pyStrip (s : String) : String :=
  ⟨((s.data.dropWhile Char.isWhitespace).reverse.dropWhile Char.isWhitespace).reverse⟩

/-- Models Python `str.lower()` via per-character lowering. -/
def pyLower (s : String) : String :=
  ⟨s.data.map Char.toLower⟩

/-- Case-insensitive substring test: models `str(v).lower().find(q.lower()) >= 0`
from `filters_ui` (and, for patterns free of regex metacharacters, the
`Series.str.contains(pat, case=False)` calls). -/
def containsCI (hay pat : String) : Bool :=
  decide ((pyLower pat).data <:+: (pyLower hay).data)

/-!
## Record Store (src/utils/storage.py)

`SCHEMA` is copied from storage.py. A dataframe `DF` is a column list plus
rows; each row is an association list from column name to cell text, and a
cell that a row does not carry reads as `""` (pandas `fillna("")` on load).
A `Store` is the persisted CSV: its header and its rows.
-/

/-- SCHEMA from src/utils/storage.py lines 11-28: the fixed column order. -/
def SCHEMA : List String :=
  [ "Date of eComm Request"
  , "Order Number"
  , "In-Correct"
  , "Store - Fitment Completed"
  , "Status"
  , "Date Finance Updated"
  , "Amount"
  , "Amount Type"
  , "Requested By"
  , "Reason"
  , "Email Subject"
  , "Email Body"
  , "Email Sent At"
  , "Archived"
  , "Last Modified By"
  , "Last Modified At" ]

/-- One dataframe row: association list from column name to cell text. -/
abbrev Row := List (String × String)

/-- Reading a cell: the looked-up value, or `""` when the key is absent
(pandas reads a missing or empty cell as NA and the loader does `fillna("")`). -/
def cell (r : Row) (c : String) : String :=
  (r.lookup c).getD ""

/-- An in-memory dataframe: its column list and its rows. -/
structure DF where
  cols : List String
  rows : List Row
deriving DecidableEq

/-- The persisted CSV file: header and rows. -/
structure Store where
  header : List String
  rows : List Row
deriving DecidableEq

/-- save_tracker (storage.py lines 64-67): keep the columns of SCHEMA that the
dataframe has, in SCHEMA order, and write exactly those columns of every row.
A SCHEMA column the dataframe lacks is simply not written. -/
def save_tracker (df : DF) : Store :=
  { header := SCHEMA.filter (fun c => df.cols.contains c)
  , rows := df.rows.map (fun r =>
      (SCHEMA.filter (fun c => df.cols.contains c)).map (fun c => (c, cell r c))) }

/-- load_tracker (storage.py lines 53-62): read all rows as text with NA
filled by `""`, add every missing SCHEMA column as `""`, and reorder the
columns to SCHEMA (dropping any column outside SCHEMA). -/
def load_tracker (s : Store) : DF :=
  { cols := SCHEMA
  , rows := s.rows.map (fun r =>
      SCHEMA.map (fun c => (c, if s.header.contains c then cell r c else ""))) }

/-- The canonical form of a row: exactly the SCHEMA fields, in SCHEMA order,
with fields the row lacks filled by `""`. -/
def canonicalRow (r : Row) : Row :=
  SCHEMA.map (fun c => (c, cell r c))

/-- The canonical form of a dataframe under SCHEMA. -/
def canonicalize (df : DF) : DF :=
  { cols := SCHEMA, rows := df.rows.map canonicalRow }

/-!
## Config Store (src/utils/storage.py lines 30-51)

The config file is in exactly one of three states: absent, present and
parseable to a JSON object, or present but unparseable (the `except` arm of
`load_config`). A config object is an association list of string settings.
-/

/-- State of the JSON config file on disk. -/
inductive ConfigFile where
  | absent : ConfigFile
  | parseable (cfg : List (String × String)) : ConfigFile
  | unparseable : ConfigFile
deriving DecidableEq

/-- DEFAULT_CONFIG from storage.py lines 30-32. -/
def DEFAULT_CONFIG : List (String × String) :=
  [("duplicate_check", "pair")]

/-- save_config (storage.py lines 48-51): writes the object, leaving the file
parseable. -/
def save_config (cfg : List (String × String)) : ConfigFile :=
  ConfigFile.parseable cfg

/-- Models the `cfg.setdefault(k, v)` loop of load_config: every default key
not already present is appended with its default value. -/
def fillDefaults (cfg : List (String × String)) : List (String × String) :=
  DEFAULT_CONFIG.foldl
    (fun c kv => if (c.lookup kv.1).isSome then c else c ++ [kv]) cfg

/-- load_config (storage.py lines 34-46): on a missing file, persist and
return the defaults; on a parseable file, return it with defaults filled in;
on an unparseable file, fall back to the defaults without writing.
Returns the config together with the resulting file state. -/
def load_config : ConfigFile → List (String × String) × ConfigFile
  | ConfigFile.absent => (DEFAULT_CONFIG, save_config DEFAULT_CONFIG)
  | ConfigFile.parseable cfg => (fillDefaults cfg, ConfigFile.parseable cfg)
  | ConfigFile.unparseable => (DEFAULT_CONFIG, ConfigFile.unparseable)

/-!
## Helper lemmas for the storage layer
-/

theorem lookup_map_self (l : List String) (f : String → String) (c : String)
    (hc : c ∈ l) : (l.map (fun x => (x, f x))).lookup c = some (f c) := by
  induction l with
  | nil => cases hc
  | cons a t ih =>
    simp only [List.map_cons, List.lookup_cons]
    by_cases hca : c = a
    · subst hca
      simp
    · have : (c == a) = false := by simp [hca]
      rw [this]
      exact ih (by
        rcases List.mem_cons.mp hc with h | h
        · exact absurd h hca
        · exact h)

theorem cell_canonicalRow (r : Row) (c : String) (hc : c ∈ SCHEMA) :
    cell (canonicalRow r) c = cell r c := by
  unfold cell canonicalRow
  rw [lookup_map_self SCHEMA (fun x => cell r x) c hc]
  rfl

theorem filter_contains_of_all (l : List String) (m : List String)
    (h : ∀ c ∈ l, m.contains c = true) :
    l.filter (fun c => m.contains c) = l := by
  induction l with
  | nil => rfl
  | cons a t ih =>
    rw [List.filter_cons]
    rw [h a (List.mem_cons_self a t)]
    simp only [if_true]
    rw [ih (fun c hc => h c (List.mem_cons_of_mem a hc))]

theorem contains_of_mem (l : List String) (c : String) (hc : c ∈ l) :
    l.contains c = true :=
  List.elem_eq_true_of_mem hc

theorem row_roundtrip (r : Row) :
    SCHEMA.map (fun c => (c, if SCHEMA.contains c then cell (canonicalRow r) c else ""))
      = canonicalRow r := by
  have h : ∀ c ∈ SCHEMA,
      (c, if SCHEMA.contains c then cell (canonicalRow r) c else "") = (c, cell r c) := by
    intro c hc
    rw [cell_canonicalRow r c hc]
    simp [contains_of_mem SCHEMA c hc, hc]
  exact List.map_congr_left h

/-- C4: saving any collection whose columns cover SCHEMA and loading it back
yields the canonical form of the collection: exactly the SCHEMA fields, in
SCHEMA order, with missing or empty optional fields read as the empty
string. -/
theorem c4_round_trip (df : DF) (h : ∀ c ∈ SCHEMA, df.cols.contains c = true) :
    load_tracker (save_tracker df) = canonicalize df := by
  unfold load_tracker save_tracker canonicalize
  have hdr : SCHEMA.filter (fun c => df.cols.contains c) = SCHEMA :=
    filter_contains_of_all SCHEMA df.cols h
  rw [hdr]
  congr 1
  rw [List.map_map]
  exact List.map_congr_left (fun r _ => row_roundtrip r)

/-- A concrete one-record collection with all SCHEMA columns, whose row only
carries the Order Number field. -/
def dfC4 : DF :=
  { cols := SCHEMA, rows := [[("Order Number", "BJ1001")]] }

theorem c4_round_trip_witness :
    (∀ c ∈ SCHEMA, dfC4.cols.contains c = true)
      ∧ load_tracker (save_tracker dfC4) = canonicalize dfC4 :=
  ⟨by decide, c4_round_trip dfC4 (by decide)⟩

/-- A collection that lacks every SCHEMA column except Order Number. -/
def dfC5 : DF :=
  { cols := ["Order Number"], rows := [[("Order Number", "BJ1001")]] }

/-- C5 counterexample: saving a collection that lacks the Reason column does
not supply Reason as empty; the written file is narrower than SCHEMA. -/
theorem c5_counterexample :
    ("Reason" ∈ SCHEMA)
      ∧ ¬ ("Reason" ∈ (save_tracker dfC5).header)
      ∧ (save_tracker dfC5).header ≠ SCHEMA := by decide

/-- C5 amended: save_tracker writes exactly the SCHEMA columns that are
present in the passed-in collection, in SCHEMA order (a sublist of SCHEMA);
every written row carries exactly those columns, so any field outside SCHEMA
is silently dropped; a SCHEMA field absent from the collection is omitted
from the written file (which is then narrower), and is restored as an empty
column on the next load. -/
theorem c5_save_projection (df : DF) :
    (save_tracker df).header = SCHEMA.filter (fun c => df.cols.contains c)
      ∧ (save_tracker df).header.Sublist SCHEMA
      ∧ (∀ row ∈ (save_tracker df).rows, row.map Prod.fst = (save_tracker df).header)
      ∧ (load_tracker (save_tracker df)).cols = SCHEMA := by
  refine ⟨rfl, List.filter_sublist _, ?_, rfl⟩
  intro row hrow
  rcases List.mem_map.mp hrow with ⟨r, _, hrw⟩
  subst hrw
  simp only [save_tracker, List.map_map]
  exact List.map_id _

theorem c5_save_projection_witness :
    (save_tracker dfC5).header = SCHEMA.filter (fun c => dfC5.cols.contains c) :=
  (c5_save_projection dfC5).1

/-- C6: a first load_config on a missing file returns the default config
(duplicate_check = pair) and persists it; a second load with no save in
between reads that same value back from the now-present file; and a present
but unparseable file falls back to the defaults without failing. -/
theorem c6_config_default :
    load_config ConfigFile.absent = (DEFAULT_CONFIG, ConfigFile.parseable DEFAULT_CONFIG)
      ∧ (load_config (load_config ConfigFile.absent).2).1 = DEFAULT_CONFIG
      ∧ DEFAULT_CONFIG.lookup "duplicate_check" = some "pair"
      ∧ (load_config ConfigFile.unparseable).1 = DEFAULT_CONFIG
      ∧ (load_config ConfigFile.unparseable).2 = ConfigFile.unparseable := by decide

/-!
## Application layer (src/app.py)

A `RawRecord` is one CSV row as text, in SCHEMA order. `load_data`
(app.py lines 133-161) is supposed to coerce the two date columns to date
values (`pd.to_datetime(..., errors="coerce").dt.date`, here an opaque
parser `String → Option Int` over an abstract day encoding) and the
Archived column to a boolean via the permissive token set; a coerced row is
a `Record`. Note that in the source the whole body of `load_data` sits
inside a second, nested `def load_data():` and the outer function never
calls it, so the outer function returns None; `load_data_body` below is the
nested (intended) loader, and `load_data` is the function the tabs actually
call.
-/

/-- One stored record as raw text, fields in SCHEMA order. -/
structure RawRecord where
  requestDate : String
  orderNumber : String
  incorrectStore : String
  fitmentStore : String
  status : String
  financeDate : String
  amount : String
  amountType : String
  requestedBy : String
  reason : String
  emailSubject : String
  emailBody : String
  emailSentAt : String
  archived : String
  lastModifiedBy : String
  lastModifiedAt : String
deriving DecidableEq

/-- The permissive Archived token set from app.py lines 142-149. -/
def archivedTokens : List String := ["true", "1", "yes", "y"]

/-- Archived coercion from app.py lines 142-149:
`astype(str).str.strip().str.lower().isin(["true","1","yes","y"])`. -/
def parseArchived (s : String) : Bool :=
  archivedTokens.contains (pyLower (pyStrip s))

/-- A record after load_data coercion: date columns as parsed day values
(none when unparseable or empty), Archived as a boolean, the rest text. -/
structure Record where
  requestDate : Option Int
  orderNumber : String
  incorrectStore : String
  fitmentStore : String
  status : String
  financeDate : Option Int
  amount : String
  amountType : String
  requestedBy : String
  reason : String
  emailSubject : String
  emailBody : String
  emailSentAt : String
  archived : Bool
  lastModifiedBy : String
  lastModifiedAt : String
deriving DecidableEq

/-- The per-row coercion of load_data (app.py lines 137-159), over an
abstract date parser standing for `pd.to_datetime(..., errors="coerce")`. -/
def loadRecord (parse : String → Option Int) (raw : RawRecord) : Record :=
  { requestDate := parse raw.requestDate
  , orderNumber := raw.orderNumber
  , incorrectStore := raw.incorrectStore
  , fitmentStore := raw.fitmentStore
  , status := raw.status
  , financeDate := parse raw.financeDate
  , amount := raw.amount
  , amountType := raw.amountType
  , requestedBy := raw.requestedBy
  , reason := raw.reason
  , emailSubject := raw.emailSubject
  , emailBody := raw.emailBody
  , emailSentAt := raw.emailSentAt
  , archived := parseArchived raw.archived
  , lastModifiedBy := raw.lastModifiedBy
  , lastModifiedAt := raw.lastModifiedAt }

/-- A SCHEMA-keyed row read back into a RawRecord. -/
def rawOfRow (r : Row) : RawRecord :=
  { requestDate := cell r "Date of eComm Request"
  , orderNumber := cell r "Order Number"
  , incorrectStore := cell r "In-Correct"
  , fitmentStore := cell r "Store - Fitment Completed"
  , status := cell r "Status"
  , financeDate := cell r "Date Finance Updated"
  , amount := cell r "Amount"
  , amountType := cell r "Amount Type"
  , requestedBy := cell r "Requested By"
  , reason := cell r "Reason"
  , emailSubject := cell r "Email Subject"
  , emailBody := cell r "Email Body"
  , emailSentAt := cell r "Email Sent At"
  , archived := cell r "Archived"
  , lastModifiedBy := cell r "Last Modified By"
  , lastModifiedAt := cell r "Last Modified At" }

/-- The body of the NESTED `def load_data():` in app.py lines 134-161 — the
loader the author intended: load the tracker and coerce every row. The
outer `load_data` never calls it. -/
def load_data_body (parse : String → Option Int) (s : Store) : List Record :=
  (load_tracker s).rows.map (fun r => loadRecord parse (rawOfRow r))

/-- load_data as the source actually defines it (app.py lines 133-161): its
entire body is the statement `def load_data(): ...` defining the nested
function above; the outer function never calls it and falls through,
returning None. -/
def load_data (_parse : String → Option Int) (_s : Store) : Option (List Record) :=
  none

/-!
## New-entry candidate and duplicate check (app.py lines 206-277, 428-451)

A candidate row built by `new_entry_form` carries its dates as display
STRINGS (`str(req_date)`), while the loaded dataframe carries them as date
VALUES — `PyVal` below captures the dynamic typing of the two cell kinds,
with Python cross-type equality evaluating to False.
-/

/-- A dynamically typed pandas cell as the duplicate check sees it: a date
value from the coerced column, NA for an unparseable date, or plain text. -/
inductive PyVal where
  | pydate (d : Int) : PyVal
  | na : PyVal
  | str (s : String) : PyVal
deriving DecidableEq

/-- Python `==` over such cells: equal only within one kind, and NA compares
unequal to everything including itself (NaN semantics). -/
def PyVal.peq : PyVal → PyVal → Bool
  | PyVal.pydate a, PyVal.pydate b => a == b
  | PyVal.str a, PyVal.str b => a == b
  | _, _ => false

/-- The date cell of a loaded record as the dynamic value the comparison
sees. -/
def recordDateVal (r : Record) : PyVal :=
  match r.requestDate with
  | some d => PyVal.pydate d
  | none => PyVal.na

/-- Rendering of an optional form date: `str(d) if d else ""` (app.py lines
258 and 263), over the abstract day encoding. -/
def optDateStr : Option Int → String
  | some d => toString d
  | none => ""

/-- The candidate row dict built by `new_entry_form` (app.py lines 257-274):
all dates as strings, Archived as the boolean False. -/
structure NewRow where
  requestDate : String
  orderNumber : String
  incorrectStore : String
  fitmentStore : String
  status : String
  financeDate : String
  amount : String
  amountType : String
  requestedBy : String
  reason : String
  emailSubject : String
  emailBody : String
  emailSentAt : String
  archived : Bool
  lastModifiedBy : String
  lastModifiedAt : String
deriving DecidableEq

/-- The widget values of the new-entry form that feed the candidate row. -/
structure FormInput where
  reqDate : Option Int
  orderNum : String
  status : String
  requestedBy : String
  incorrectStore : String
  fitmentStore : String
  amount : String
  amountType : String
  financeDate : Option Int
  reason : String
deriving DecidableEq

/-- new_row construction (app.py lines 257-274): text fields stripped,
Email Sent At empty, Archived False, audit fields from the signed-in user
and the submission timestamp; subject and body are the rendered template
snapshot. -/
def mkNewRow (inp : FormInput) (user tsub subject body : String) : NewRow :=
  { requestDate := optDateStr inp.reqDate
  , orderNumber := pyStrip inp.orderNum
  , incorrectStore := pyStrip inp.incorrectStore
  , fitmentStore := pyStrip inp.fitmentStore
  , status := inp.status
  , financeDate := optDateStr inp.financeDate
  , amount := pyStrip inp.amount
  , amountType := inp.amountType
  , requestedBy := inp.requestedBy
  , reason := pyStrip inp.reason
  , emailSubject := subject
  , emailBody := body
  , emailSentAt := ""
  , archived := false
  , lastModifiedBy := user
  , lastModifiedAt := tsub }

/-- The duplicate check of the new-entry flow (app.py lines 433-438).
Mode order_only: any existing Order Number, stripped, equal to the
candidate string. Any other mode (the pair default): some existing row
equal to the candidate on BOTH key columns, where the date column of the
loaded dataframe holds date values and the candidate holds a string, so
that pair of cells is compared by Python dynamic equality. -/
def dup_exists (mode : String) (records : List Record) (cand : NewRow) : Bool :=
  if mode = "order_only" then
    records.any (fun r => pyStrip r.orderNumber == cand.orderNumber)
  else
    records.any (fun r =>
      (r.orderNumber == cand.orderNumber)
        && PyVal.peq (recordDateVal r) (PyVal.str cand.requestDate))

/-!
## Filter engine (app.py lines 164-204)

The six AND-combined mask clauses of `filters_ui`, applied per row to the
loaded collection; `df[mask].copy()` becomes a stable list filter. The two
store clauses use `Series.str.contains(pat, case=False, na=False)`, which
reads the pattern as a regular expression; this model treats the pattern
literally (a case-insensitive substring), which agrees with the source for
patterns free of regex metacharacters.
-/

/-- The filter widget values: a status set, two store patterns, an optional
inclusive date range (active only when both ends are picked), the
show-archived toggle, and the free-text query. -/
structure Criteria where
  status : List String
  storeIncorrect : String
  storeFitment : String
  dateRange : Option (Int × Int)
  showArchived : Bool
  q : String
deriving DecidableEq

/-- The display text of each cell of a row, in SCHEMA order, as the
free-text search sees `r.values` (dates print their value or nan, the
boolean prints True or False). -/
def displayStrings (r : Record) : List String :=
  [ (match r.requestDate with | some d => toString d | none => "nan")
  , r.orderNumber
  , r.incorrectStore
  , r.fitmentStore
  , r.status
  , (match r.financeDate with | some d => toString d | none => "nan")
  , r.amount
  , r.amountType
  , r.requestedBy
  , r.reason
  , r.emailSubject
  , r.emailBody
  , r.emailSentAt
  , (if r.archived then "True" else "False")
  , r.lastModifiedBy
  , r.lastModifiedAt ]

/-- The mask clauses of app.py lines 184-202 other than archived
visibility: status membership, the two store patterns, the inclusive date
range (a record with no parsed date never matches an active range), and the
free-text query over every column display text. An empty widget skips its
clause. -/
def rest_mask (c : Criteria) (r : Record) : Bool :=
  (c.status.isEmpty || c.status.contains r.status)
    && (c.storeIncorrect.isEmpty || containsCI r.incorrectStore c.storeIncorrect)
    && (c.storeFitment.isEmpty || containsCI r.fitmentStore c.storeFitment)
    && (match c.dateRange with
        | none => true
        | some (s, e) =>
          match r.requestDate with
          | none => false
          | some d => decide (s ≤ d) && decide (d ≤ e))
    && (c.q.isEmpty || (displayStrings r).any (fun v => containsCI v c.q))

/-- The full row mask of app.py lines 181-202: archived visibility first
(lines 182-183), then the remaining clauses. -/
def row_mask (c : Criteria) (r : Record) : Bool :=
  (c.showArchived || !r.archived) && rest_mask c r

/-- filters_ui (app.py lines 164-204) as a function of the widget values:
`df[mask].copy()`, the stable subselection of the rows whose mask is true. -/
def filters_ui (c : Criteria) (rs : List Record) : List Record :=
  rs.filter (row_mask c)

/-!
## Email sending and the new-entry commit (app.py lines 19-53, 441-451)
-/

/-- The secret keys email_configured requires (app.py line 21). -/
def requiredSecrets : List String :=
  ["SMTP_SERVER", "SMTP_USER", "SMTP_PASSWORD", "FROM_EMAIL", "ACCOUNTS_TO"]

/-- email_configured (app.py lines 19-23): the required keys that are absent
or empty. -/
def missingSecrets (secrets : List (String × String)) : List String :=
  requiredSecrets.filter (fun k =>
    match secrets.lookup k with
    | none => true
    | some v => v.isEmpty)

/-- send_email (app.py lines 25-53): with any required secret missing, fail
with the missing-secrets message before any transport attempt; otherwise the
outcome is that of the SMTP transport (an external collaborator, passed in
as a success flag and message). -/
def send_email (secrets : List (String × String)) (transport : Bool × String) :
    Bool × String :=
  if (missingSecrets secrets).isEmpty then transport
  else (false, "Email not configured. Missing secrets: "
    ++ String.intercalate ", " (missingSecrets secrets))

/-- The committed branch of the new-entry flow (app.py lines 441-451), after
the duplicate check passed. The flow appends the candidate as the last row
of the dataframe and, when auto-email is on, attempts the send; on success
it stamps Email Sent At of that last row (df.at[df.index[-1], ...]) before
saving; on failure it reports the message and saves unchanged. The result
is the saved dataframe, represented as the prior records paired with the
final candidate row, plus the messages shown to the user. -/
def new_entry_commit (records : List Record) (new : NewRow) (send_flag : Bool)
    (secrets : List (String × String)) (transport : Bool × String)
    (tsend : String) : ((List Record × NewRow) × List String) :=
  if send_flag then
    if (send_email secrets transport).1 then
      ((records, { new with emailSentAt := tsend }), ["Auto-email sent to Accounts."])
    else
      ((records, new), [(send_email secrets transport).2])
  else
    ((records, new), [])

/-!
## Bulk inline edit (app.py lines 279-309)
-/

/-- The save branch of edit_selected_rows (app.py lines 303-309): the whole
edited dataframe gets its Last Modified By and Last Modified At columns
overwritten with the acting user and the current timestamp, and the result
is passed to save_tracker. -/
def edit_selected_rows (ed : List Record) (user now : String) : List Record :=
  ed.map (fun r => { r with lastModifiedBy := user, lastModifiedAt := now })

/-- Agreement of two records on every field other than the two audit
fields. -/
def sameExceptAudit (a b : Record) : Prop :=
  a.requestDate = b.requestDate ∧ a.orderNumber = b.orderNumber
    ∧ a.incorrectStore = b.incorrectStore ∧ a.fitmentStore = b.fitmentStore
    ∧ a.status = b.status ∧ a.financeDate = b.financeDate
    ∧ a.amount = b.amount ∧ a.amountType = b.amountType
    ∧ a.requestedBy = b.requestedBy ∧ a.reason = b.reason
    ∧ a.emailSubject = b.emailSubject ∧ a.emailBody = b.emailBody
    ∧ a.emailSentAt = b.emailSentAt ∧ a.archived = b.archived

/-!
## Concrete instances used by the evaluation and witness theorems
-/

/-- A stand-in for the pandas date parser over the abstract day encoding:
the one well-formed date text of the examples parses to day 7. -/
def parse0 : String → Option Int :=
  fun s => if s = "7" then some 7 else none

/-- A stored record with Order Number BJ1001 and request date text 7. -/
def raw0 : RawRecord :=
  { requestDate := "7", orderNumber := "BJ1001", incorrectStore := ""
  , fitmentStore := "", status := "Flagged", financeDate := "", amount := ""
  , amountType := "", requestedBy := "eComm", reason := "", emailSubject := ""
  , emailBody := "", emailSentAt := "", archived := "", lastModifiedBy := ""
  , lastModifiedAt := "" }

/-- Form input resubmitting the very same order number and request date as
raw0: its candidate row renders the date back to the identical text 7. -/
def input0 : FormInput :=
  { reqDate := some 7, orderNum := "BJ1001", status := "Flagged"
  , requestedBy := "eComm", incorrectStore := "", fitmentStore := ""
  , amount := "", amountType := "", financeDate := none, reason := "" }

/-- The candidate row of input0. -/
def cand0 : NewRow :=
  mkNewRow input0 "user@bobjane.com.au" "T1" "subj" "body"

/-!
## Claims C1, C2, C3
-/

theorem dup_pair_false (records : List Record) (cand : NewRow) :
    dup_exists "pair" records cand = false := by
  unfold dup_exists
  rw [if_neg (by decide : ¬ (("pair" : String) = "order_only"))]
  simp only [List.any_eq_false]
  intro r _
  cases hd : r.requestDate with
  | none => simp [recordDateVal, hd, PyVal.peq]
  | some d => simp [recordDateVal, hd, PyVal.peq]

/-- C1: evaluation at the failing input. The stored record and the
candidate agree literally on both key strings (Order Number and request
date text), yet the pair-mode duplicate check returns false, because the
loaded dataframe holds the request date as a coerced date value while the
candidate row holds a string, and the two compare unequal; the candidate is
therefore appended, not rejected. -/
theorem c1_pair_duplicate_missed :
    raw0.orderNumber = cand0.orderNumber
      ∧ raw0.requestDate = cand0.requestDate
      ∧ (loadRecord parse0 raw0).requestDate = some 7
      ∧ dup_exists "pair" [loadRecord parse0 raw0] cand0 = false := by decide

/-- C2: under order_only, a candidate whose (stripped) order number matches
some existing record is flagged as a duplicate regardless of the dates,
while the same candidate is not flagged under pair mode. -/
theorem c2_order_only_detects (records : List Record) (inp : FormInput)
    (user tsub subject body : String) (r : Record) (hr : r ∈ records)
    (horder : pyStrip r.orderNumber = pyStrip inp.orderNum)
    (_hdate : recordDateVal r ≠ PyVal.str (mkNewRow inp user tsub subject body).requestDate) :
    dup_exists "order_only" records (mkNewRow inp user tsub subject body) = true
      ∧ dup_exists "pair" records (mkNewRow inp user tsub subject body) = false := by
  refine ⟨?_, dup_pair_false records (mkNewRow inp user tsub subject body)⟩
  unfold dup_exists
  rw [if_pos rfl, List.any_eq_true]
  exact ⟨r, hr, by simp [mkNewRow, horder]⟩

/-- Form input carrying the raw0 order number with trailing whitespace and a
different request date. -/
def input2 : FormInput :=
  { reqDate := some 9, orderNum := "BJ1001 ", status := "Flagged"
  , requestedBy := "Store", incorrectStore := "", fitmentStore := ""
  , amount := "", amountType := "", financeDate := none, reason := "" }

theorem c2_order_only_detects_witness :
    (loadRecord parse0 raw0) ∈ [loadRecord parse0 raw0]
      ∧ pyStrip (loadRecord parse0 raw0).orderNumber = pyStrip input2.orderNum
      ∧ recordDateVal (loadRecord parse0 raw0)
          ≠ PyVal.str (mkNewRow input2 "u@x" "T2" "s" "b").requestDate
      ∧ dup_exists "order_only" [loadRecord parse0 raw0]
          (mkNewRow input2 "u@x" "T2" "s" "b") = true
      ∧ dup_exists "pair" [loadRecord parse0 raw0]
          (mkNewRow input2 "u@x" "T2" "s" "b") = false :=
  ⟨by decide, by decide, by decide,
    (c2_order_only_detects [loadRecord parse0 raw0] input2 "u@x" "T2" "s" "b"
      (loadRecord parse0 raw0) (by decide) (by decide) (by decide)).1,
    (c2_order_only_detects [loadRecord parse0 raw0] input2 "u@x" "T2" "s" "b"
      (loadRecord parse0 raw0) (by decide) (by decide) (by decide)).2⟩

/-- C3: load_data as defined returns None on every call — its body is just
the nested function definition, which it never invokes — so no caller ever
receives the loaded collection. -/
theorem c3_load_data_returns_none (parse : String → Option Int) (s : Store) :
    load_data parse s = none :=
  rfl

/-!
## Claims C7, C8
-/

/-- C7: the filter is idempotent — reapplying the same criteria to its own
output returns that output unchanged — and its output is a sublist of the
input: the records kept are the very input records, unmodified, in their
original relative order. -/
theorem c7_filter_stable_idempotent (c : Criteria) (rs : List Record) :
    filters_ui c (filters_ui c rs) = filters_ui c rs
      ∧ (filters_ui c rs).Sublist rs := by
  refine ⟨?_, List.filter_sublist rs⟩
  simp [filters_ui, List.filter_filter]

theorem rest_mask_set_archived (c : Criteria) (b : Bool) (r : Record) :
    rest_mask { c with showArchived := b } r = rest_mask c r :=
  rfl

/-- C8: with show-archived off, a loaded record is in the filtered view
exactly when it passes the other criteria and its stored Archived text,
stripped and lowercased, is NOT one of the accepted tokens; with
show-archived on, passing the other criteria suffices (every record is
shown regardless of its Archived text). -/
theorem c8_archived_visibility (parse : String → Option Int) (crit : Criteria)
    (rs : List RawRecord) (raw : RawRecord) (hmem : raw ∈ rs) :
    (loadRecord parse raw
        ∈ filters_ui { crit with showArchived := false } (rs.map (loadRecord parse))
      ↔ (rest_mask crit (loadRecord parse raw) = true
          ∧ archivedTokens.contains (pyLower (pyStrip raw.archived)) = false))
    ∧ (rest_mask crit (loadRecord parse raw) = true
        → loadRecord parse raw
            ∈ filters_ui { crit with showArchived := true } (rs.map (loadRecord parse))) := by
  constructor
  · rw [filters_ui, List.mem_filter]
    constructor
    · rintro ⟨-, hmask⟩
      rw [row_mask, rest_mask_set_archived] at hmask
      simp only [Bool.false_or, Bool.and_eq_true, Bool.not_eq_true'] at hmask
      refine ⟨hmask.2, ?_⟩
      simpa [loadRecord, parseArchived] using hmask.1
    · rintro ⟨hrest, htok⟩
      refine ⟨List.mem_map_of_mem _ hmem, ?_⟩
      rw [row_mask, rest_mask_set_archived]
      simp only [Bool.false_or, Bool.and_eq_true, Bool.not_eq_true']
      refine ⟨?_, hrest⟩
      simpa [loadRecord, parseArchived] using htok
  · intro hrest
    refine List.mem_filter.mpr ⟨List.mem_map_of_mem _ hmem, ?_⟩
    rw [row_mask, rest_mask_set_archived]
    simp [hrest]

/-- A stored record marked archived through the permissive token YES with
trailing whitespace. -/
def rawArch : RawRecord :=
  { raw0 with orderNumber := "BJ2002", archived := "YES " }

/-- Criteria with every other clause inactive. -/
def crit0 : Criteria :=
  { status := [], storeIncorrect := "", storeFitment := "", dateRange := none
  , showArchived := false, q := "" }

theorem c8_archived_visibility_witness :
    rawArch ∈ [rawArch]
      ∧ ((loadRecord parse0 rawArch
            ∈ filters_ui { crit0 with showArchived := false }
                ([rawArch].map (loadRecord parse0))
          ↔ (rest_mask crit0 (loadRecord parse0 rawArch) = true
              ∧ archivedTokens.contains (pyLower (pyStrip rawArch.archived)) = false))
        ∧ (rest_mask crit0 (loadRecord parse0 rawArch) = true
            → loadRecord parse0 rawArch
                ∈ filters_ui { crit0 with showArchived := true }
                    ([rawArch].map (loadRecord parse0)))) :=
  ⟨by decide, c8_archived_visibility parse0 crit0 [rawArch] rawArch (by decide)⟩

/-!
## Claim C9
-/

/-- C9: in the new-entry flow with auto-email on, when the send fails the
saved dataframe is still the prior records with the candidate appended, the
failure message is the one reported to the user, and the Email Sent At
field of the appended record is the empty string; when the send succeeds,
the appended record is saved with Email Sent At stamped. -/
theorem c9_delivery_failure_nonfatal (records : List Record) (inp : FormInput)
    (user tsub subject body tsend : String) (secrets : List (String × String))
    (transport : Bool × String)
    (hfail : (send_email secrets transport).1 = false) :
    new_entry_commit records (mkNewRow inp user tsub subject body) true secrets
        transport tsend
      = ((records, mkNewRow inp user tsub subject body),
          [(send_email secrets transport).2])
      ∧ (mkNewRow inp user tsub subject body).emailSentAt = ""
      ∧ (∀ transport2 : Bool × String, (send_email secrets transport2).1 = true →
          new_entry_commit records (mkNewRow inp user tsub subject body) true
              secrets transport2 tsend
            = ((records,
                { mkNewRow inp user tsub subject body with emailSentAt := tsend }),
                ["Auto-email sent to Accounts."])) := by
  refine ⟨?_, rfl, ?_⟩
  · rw [new_entry_commit]
    simp [hfail]
  · intro t2 hok
    rw [new_entry_commit]
    simp [hok]

theorem c9_delivery_failure_nonfatal_witness :
    (send_email [] (true, "transport would succeed")).1 = false
      ∧ new_entry_commit [] (mkNewRow input0 "user@bobjane.com.au" "T1" "subj" "body")
          true [] (true, "transport would succeed") "T3"
        = (([], mkNewRow input0 "user@bobjane.com.au" "T1" "subj" "body"),
            [(send_email [] (true, "transport would succeed")).2]) :=
  ⟨by decide,
    (c9_delivery_failure_nonfatal [] input0 "user@bobjane.com.au" "T1" "subj"
      "body" "T3" [] (true, "transport would succeed") (by decide)).1⟩

/-!
## Claim C10
-/

/-- C10: clicking Save changes overwrites the two audit columns of every row
of the edited collection — the i-th saved row carries the acting user and
the save timestamp — while every other field of the i-th row is exactly the
i-th edited row, and the saved collection has the same length as the edited
one (the whole collection, untouched rows included, is what save_tracker
receives). -/
theorem c10_bulk_edit_overwrites_audit (ed : List Record) (u t : String)
    (i : Nat) (h : i < ed.length) :
    (edit_selected_rows ed u t).length = ed.length
      ∧ ((edit_selected_rows ed u t).get
          ⟨i, by simpa [edit_selected_rows] using h⟩).lastModifiedBy = u
      ∧ ((edit_selected_rows ed u t).get
          ⟨i, by simpa [edit_selected_rows] using h⟩).lastModifiedAt = t
      ∧ sameExceptAudit
          ((edit_selected_rows ed u t).get
            ⟨i, by simpa [edit_selected_rows] using h⟩)
          (ed.get ⟨i, h⟩) := by
  refine ⟨by simp [edit_selected_rows], ?_, ?_, ?_⟩ <;>
    simp [edit_selected_rows, List.get_eq_getElem, List.getElem_map, sameExceptAudit]

theorem c10_bulk_edit_overwrites_audit_witness :
    (edit_selected_rows [loadRecord parse0 rawArch] "admin@bobjane.com.au" "T4").length
        = [loadRecord parse0 rawArch].length
      ∧ ((edit_selected_rows [loadRecord parse0 rawArch] "admin@bobjane.com.au" "T4").get
          ⟨0, by simp [edit_selected_rows]⟩).lastModifiedBy = "admin@bobjane.com.au" :=
  ⟨(c10_bulk_edit_overwrites_audit [loadRecord parse0 rawArch]
      "admin@bobjane.com.au" "T4" 0 (by decide)).1,
    (c10_bulk_edit_overwrites_audit [loadRecord parse0 rawArch]
      "admin@bobjane.com.au" "T4" 0 (by decide)).2.1⟩

end Tracker
